import Mathlib

/-!
# AlertMatrix detection services — verification development

Shallow embedding of the Python detection services in `Yolo5/` of the
alertmatrix repository, together with theorems about the embedded code.

Times and confidences are modelled as rationals (`ℚ`); the Python code uses
floats from `time.time()` and the detector, but every comparison the code
performs is an exact order comparison, so `ℚ` is a faithful executable model.
HTTP and transport behaviour of `requests.post` is modelled by an explicit
`DispatchOutcome` argument: the outcome the network layer would produce for
the attempted POST.
-/

namespace AlertMatrix

/-- Outcome of the `requests.post` call in `send_alert`: either an HTTP
response with a status code, a `requests.exceptions.RequestException`
(transport failure / timeout), or any other exception raised while building
or sending the alert. -/
inductive DispatchOutcome where
  | response (status : Nat)
  | requestException
  | otherException
  deriving DecidableEq, Repr

/-- State of `EnhancedDetectionService` relevant to alerting
(`enhanced_detection_service.py`, `__init__`, lines 40–64): the display
(base confidence) threshold, the hardcoded alert threshold, the cooldown
length, the per-class last-successful-alert clocks (initialised to `0`),
and the successful-dispatch counter. -/
structure EnhancedState where
  confidence_threshold : ℚ
  alert_threshold : ℚ
  cooldown_seconds : ℚ
  camera_id : String
  detection_count : ℕ
  last_gun_alert : ℚ
  last_knife_alert : ℚ
  deriving DecidableEq, Repr

/-- `EnhancedDetectionService.__init__`: `confidence_threshold` and
`cooldown_seconds` come from the configuration, `alert_threshold` is
hardcoded to `0.7`, counters and clocks start at `0`. -/
def initEnhanced (confidence_threshold : ℚ) (cooldown_seconds : ℚ)
    (camera_id : String) : EnhancedState :=
  { confidence_threshold := confidence_threshold
    alert_threshold := 7/10
    cooldown_seconds := cooldown_seconds
    camera_id := camera_id
    detection_count := 0
    last_gun_alert := 0
    last_knife_alert := 0 }

/-- `EnhancedDetectionService.send_alert` (lines 303–352).
`current_time` is the value of `time.time()` at the call; `outcome` is what
the network layer does with the POST if one is attempted.  Returns the
boolean result of the Python method together with the state of the service
after the call.  The cooldown check reads the gun clock when
`detection_type == 'gun'` and the knife clock otherwise; only a `200`
response updates the clock and the counter.  Every exception is caught, so
the method is total. -/
def sendAlertE (s : EnhancedState) (detection_type : String)
    (current_time : ℚ) (outcome : DispatchOutcome) : Bool × EnhancedState :=
  let last_alert_time :=
    if detection_type = "gun" then s.last_gun_alert else s.last_knife_alert
  if current_time - last_alert_time < s.cooldown_seconds then
    (false, s)
  else
    match outcome with
    | .response 200 =>
        if detection_type = "gun" then
          (true, { s with last_gun_alert := current_time
                          detection_count := s.detection_count + 1 })
        else
          (true, { s with last_knife_alert := current_time
                          detection_count := s.detection_count + 1 })
    | .response _ => (false, s)
    | .requestException => (false, s)
    | .otherException => (false, s)

/-- State of `GunDetectionService` relevant to alerting
(`gun_detection_service.py`): note the single `last_alert_time` clock shared
by every detection type. -/
structure GunServiceState where
  confidence_threshold : ℚ
  cooldown_seconds : ℚ
  camera_id : String
  detection_count : ℕ
  last_alert_time : ℚ
  deriving DecidableEq, Repr

/-- `GunDetectionService` initial alerting state: counter and clock at `0`. -/
def initGunService (confidence_threshold : ℚ) (cooldown_seconds : ℚ)
    (camera_id : String) : GunServiceState :=
  { confidence_threshold := confidence_threshold
    cooldown_seconds := cooldown_seconds
    camera_id := camera_id
    detection_count := 0
    last_alert_time := 0 }

/-- `GunDetectionService.send_alert` (lines 123–169): same shape as the
enhanced service's method, but the cooldown check and the update use the one
shared `last_alert_time`, whatever `detection_type` is. -/
def sendAlertG (s : GunServiceState) (detection_type : String)
    (current_time : ℚ) (outcome : DispatchOutcome) : Bool × GunServiceState :=
  if current_time - s.last_alert_time < s.cooldown_seconds then
    (false, s)
  else
    match outcome with
    | .response 200 =>
        (true, { s with last_alert_time := current_time
                        detection_count := s.detection_count + 1 })
    | .response _ => (false, s)
    | .requestException => (false, s)
    | .otherException => (false, s)

/-- Python `int()` applied to a float: truncation toward zero. -/
def pyInt (q : ℚ) : ℤ := q.num.tdiv (q.den : ℤ)

/-- Does the character list `pat` occur at the very start of `text`? -/
def chStarts : List Char → List Char → Bool
  | [], _ => true
  | _ :: _, [] => false
  | p :: ps, c :: cs => p == c && chStarts ps cs

/-- Does the character list `pat` occur anywhere inside `text`? -/
def chContains : List Char → List Char → Bool
  | [], pat => chStarts pat []
  | c :: cs, pat => chStarts pat (c :: cs) || chContains cs pat

/-- Python's substring operator `sub in s` on strings. -/
def containsSub (s sub : String) : Bool :=
  chContains s.data sub.data

/-- Python's `str.lower()` (the class names here are ASCII). -/
def pyLower (s : String) : String :=
  String.mk (s.data.map Char.toLower)

/-- `weapon_classes` of `process_detections` (line 444). -/
def weapon_classes : List String := ["gun", "knife", "guns", "knives"]

/-- `is_weapon = any(weapon in class_name.lower() for weapon in weapon_classes)`. -/
def isWeaponName (class_name : String) : Bool :=
  weapon_classes.any (fun w => containsSub (pyLower class_name) w)

/-- `any(gun_type in class_name.lower() for gun_type in ['gun', 'guns'])`. -/
def isGunName (class_name : String) : Bool :=
  ["gun", "guns"].any (fun w => containsSub (pyLower class_name) w)

/-- One box of an ultralytics `Results.boxes` object: four corner
coordinates, a confidence and a class index, all floats. -/
structure UBox where
  x1 : ℚ
  y1 : ℚ
  x2 : ℚ
  y2 : ℚ
  conf : ℚ
  cls : ℚ
  deriving DecidableEq, Repr

/-- The shapes of raw detector results that `process_detections`
distinguishes (lines 362–399): a list of ultralytics `Results` objects
(first element used), a single `Results` object, a YOLOv5 torch.hub result
whose `xyxy[0]` is a numeric table of arbitrary width, or anything else. -/
inductive RawResults where
  | resultsList (boxes : List UBox)
  | singleResult (boxes : List UBox)
  | v5Table (table : List (List ℚ))
  | unrecognized
  deriving DecidableEq, Repr

/-- `np.hstack([xyxy, conf, cls])` row for one ultralytics box: always six
columns. -/
def uboxRow (b : UBox) : List ℚ := [b.x1, b.y1, b.x2, b.y2, b.conf, b.cls]

/-- The prediction array `pred` built from the raw results
(lines 359–399): structured results give an (N, 6) table, a YOLOv5 result
gives its own table unchanged, anything unrecognized leaves `pred` as the
initial `np.empty((0, 6))`. -/
def rawPred : RawResults → List (List ℚ)
  | .resultsList boxes => boxes.map uboxRow
  | .singleResult boxes => boxes.map uboxRow
  | .v5Table t => t
  | .unrecognized => []

/-- Numpy shape of a list of rows: a rectangular list of equal-length rows
is a 2-D array of that width; a ragged list becomes a 1-D object array
(`none`). The empty table is the initial `(0, 6)` array. -/
def uniformWidth : List (List ℚ) → Option ℕ
  | [] => some 6
  | r :: rs => if rs.all (fun row => row.length == r.length) then some r.length else none

/-- `pred.size`: total element count of a 2-D array, object count of a 1-D
object array. -/
def npSize (t : List (List ℚ)) : ℕ :=
  match uniformWidth t with
  | some w => t.length * w
  | none => t.length

/-- The shape validation of lines 403–407: a nonempty `pred` that is not
2-D, or whose second dimension is below 6, is reset to the empty array. -/
def validatePred (t : List (List ℚ)) : List (List ℚ) :=
  if npSize t = 0 then t
  else
    match uniformWidth t with
    | some w => if w < 6 then [] else t
    | none => []

/-- One OpenCV drawing call performed by `process_detections` on the frame
buffer, with the repository-side arguments of the call; the pixel-level
effect of the cv2 primitive is abstracted.  Colors are the BGR triples of
the source. -/
inductive DrawOp where
  | warningText (weapon_type : String) (conf : ℚ) (row : ℕ)
  | boundingBox (x1 y1 x2 y2 : ℤ) (color : ℕ × ℕ × ℕ) (thickness : ℕ)
  | labelBackground (x1 y1 : ℤ) (class_name : String) (conf : ℚ) (color : ℕ × ℕ × ℕ)
  | labelText (class_name : String) (conf : ℚ) (x1 y1 : ℤ)
  | centerDot (cx cy : ℤ) (color : ℕ × ℕ × ℕ)
  | summaryText (count : ℕ) (threshold : ℚ)
  deriving DecidableEq, Repr

/-- Accumulated effects of `process_detections`: the `detections` return
value, the `frame_detection_count` local, the alerting state of the
service, the list of `send_alert` calls attempted (weapon type and
confidence), the contents of the caller's frame buffer (the code draws into
the caller's array in place, so this is what the caller sees after the
call), and how many dispatch outcomes have been consumed. -/
structure ProcAcc where
  detections : List (String × ℚ × List ℚ)
  frame_detection_count : ℕ
  state : EnhancedState
  attempts : List (String × ℚ)
  frame : List DrawOp
  oracle_idx : ℕ
  deriving DecidableEq, Repr

/-- The box, label and center-dot drawing calls performed for every
displayed detection (lines 482–499). -/
def detDrawOps (xi1 yi1 xi2 yi2 : ℤ) (class_name : String) (conf : ℚ)
    (color : ℕ × ℕ × ℕ) (thickness : ℕ) : List DrawOp :=
  [DrawOp.boundingBox xi1 yi1 xi2 yi2 color thickness,
   DrawOp.labelBackground xi1 yi1 class_name conf color,
   DrawOp.labelText class_name conf xi1 yi1,
   DrawOp.centerDot ((xi1 + xi2).fdiv 2) ((yi1 + yi2).fdiv 2) color]

/-- The 6-way unpacking `x1, y1, x2, y2, conf, cls = detection`
(line 422): succeeds exactly on a 6-field row; on any other shape Python
raises `ValueError`. -/
def unpackRow : List ℚ → Option (ℚ × ℚ × ℚ × ℚ × ℚ × ℚ)
  | [x1, y1, x2, y2, conf, cls] => some (x1, y1, x2, y2, conf, cls)
  | _ => none

/-- The per-detection loop of `process_detections` (lines 416–499).  A row
shorter than 6 fields is skipped with a warning; a row longer than 6 makes
the 6-way unpacking raise `ValueError` (modelled as `Except.error`); a
class index outside `names` is skipped.  A detection at or above the
display threshold is recorded and drawn; a high-confidence weapon
(at or above the alert threshold) additionally triggers `send_alert` when
`send_alerts` is set (its boolean result is discarded) and gets the
warning overlay.  Each source branch picks its color/thickness and falls
through to the common drawing calls, spelled out per branch here. -/
def procRows (send_alerts : Bool) (oracle : ℕ → DispatchOutcome) (now : ℚ)
    (names : List (ℤ × String)) :
    List (List ℚ) → ProcAcc → Except String ProcAcc
  | [], acc => .ok acc
  | row :: rest, acc =>
    if row.length < 6 then
      procRows send_alerts oracle now names rest acc
    else
      match unpackRow row with
      | some (x1, y1, x2, y2, conf, cls) =>
        let class_id := pyInt cls
        match names.lookup class_id with
        | none => procRows send_alerts oracle now names rest acc
        | some class_name =>
          if conf ≥ acc.state.confidence_threshold then
            let fdc := acc.frame_detection_count + 1
            let xi1 := pyInt x1
            let yi1 := pyInt y1
            let xi2 := pyInt x2
            let yi2 := pyInt y2
            if isWeaponName class_name then
              if conf ≥ acc.state.alert_threshold then
                let gun := isGunName class_name
                let weapon_type := if gun then "gun" else "knife"
                let color : ℕ × ℕ × ℕ :=
                  if gun then (0, 0, 255) else (0, 165, 255)
                if send_alerts then
                  procRows send_alerts oracle now names rest
                    { detections := acc.detections ++ [(class_name, conf, [x1, y1, x2, y2])]
                      frame_detection_count := fdc
                      state := (sendAlertE acc.state weapon_type now (oracle acc.oracle_idx)).2
                      attempts := acc.attempts ++ [(weapon_type, conf)]
                      frame := acc.frame ++ [DrawOp.warningText weapon_type conf fdc] ++
                        detDrawOps xi1 yi1 xi2 yi2 class_name conf color 3
                      oracle_idx := acc.oracle_idx + 1 }
                else
                  procRows send_alerts oracle now names rest
                    { detections := acc.detections ++ [(class_name, conf, [x1, y1, x2, y2])]
                      frame_detection_count := fdc
                      state := acc.state
                      attempts := acc.attempts
                      frame := acc.frame ++ [DrawOp.warningText weapon_type conf fdc] ++
                        detDrawOps xi1 yi1 xi2 yi2 class_name conf color 3
                      oracle_idx := acc.oracle_idx }
              else
                let color : ℕ × ℕ × ℕ :=
                  if isGunName class_name then (0, 0, 180) else (0, 140, 220)
                procRows send_alerts oracle now names rest
                  { detections := acc.detections ++ [(class_name, conf, [x1, y1, x2, y2])]
                    frame_detection_count := fdc
                    state := acc.state
                    attempts := acc.attempts
                    frame := acc.frame ++
                      detDrawOps xi1 yi1 xi2 yi2 class_name conf color 2
                    oracle_idx := acc.oracle_idx }
            else
              procRows send_alerts oracle now names rest
                { detections := acc.detections ++ [(class_name, conf, [x1, y1, x2, y2])]
                  frame_detection_count := fdc
                  state := acc.state
                  attempts := acc.attempts
                  frame := acc.frame ++
                    detDrawOps xi1 yi1 xi2 yi2 class_name conf (128, 128, 128) 1
                  oracle_idx := acc.oracle_idx }
          else
            procRows send_alerts oracle now names rest acc
      | none => .error "ValueError: too many values to unpack (expected 6)"

/-- `EnhancedDetectionService.process_detections` (lines 354–513): builds
and validates the prediction table, runs the per-detection loop, then
unconditionally draws the detection summary overlay (lines 502–504).
`frame` is the contents of the caller's frame buffer on entry; the `frame`
field of the result is its contents on return (the code draws in place and
never copies the input). -/
def processDetections (st : EnhancedState) (results : RawResults)
    (names : List (ℤ × String)) (frame : List DrawOp) (send_alerts : Bool)
    (oracle : ℕ → DispatchOutcome) (now : ℚ) : Except String ProcAcc :=
  let pred := validatePred (rawPred results)
  match procRows send_alerts oracle now names pred
      { detections := []
        frame_detection_count := 0
        state := st
        attempts := []
        frame := frame
        oracle_idx := 0 } with
  | .error e => .error e
  | .ok acc =>
      .ok { acc with
              frame := acc.frame ++
                [DrawOp.summaryText acc.frame_detection_count st.confidence_threshold] }

/-- A whole sequence of `send_alert` calls on the enhanced service: returns
the final state and the list of boolean results, in order. -/
def runAlertsE (s : EnhancedState) :
    List (String × ℚ × DispatchOutcome) → EnhancedState × List Bool
  | [] => (s, [])
  | (ty, t, outcome) :: rest =>
      let step := sendAlertE s ty t outcome
      let tail := runAlertsE step.2 rest
      (tail.1, step.1 :: tail.2)

/-- The JSON body returned by the `/api/status` route of the enhanced
service (lines 178–185). -/
structure StatusJson where
  status : String
  camera_id : String
  detection_count : ℕ
  confidence_threshold : ℚ
  deriving DecidableEq, Repr

/-- `/api/status` handler of `EnhancedDetectionService`. -/
def apiStatus (s : EnhancedState) : StatusJson :=
  { status := "active"
    camera_id := s.camera_id
    detection_count := s.detection_count
    confidence_threshold := s.confidence_threshold }

/-- An image held in a stream buffer, abstracting the pixel array: its
dimensions, the solid color it was initialised with, and the text lines
drawn onto it. -/
structure StreamImg where
  height : ℕ
  width : ℕ
  base_color : ℕ × ℕ × ℕ
  texts : List String
  deriving DecidableEq, Repr

/-- `create_placeholder_frame` of `working_video_stream.py`
(lines 183–203): a black 480×640 frame with four status text lines, the
last being the current timestamp. -/
def create_placeholder_frame (timestamp : String) : StreamImg :=
  { height := 480
    width := 640
    base_color := (0, 0, 0)
    texts := ["AlertMatrix Video Stream",
              "Camera Not Available",
              "Please check camera connection",
              timestamp] }

/-- The bytes produced by `cv2.imencode('.jpg', img, quality)`, abstracted
as the image they encode together with the JPEG quality.  Encoding of a
valid in-memory image succeeds, so `ret` is modelled as true. -/
structure Jpeg where
  source : StreamImg
  quality : ℕ
  deriving DecidableEq, Repr

/-- One part of the `multipart/x-mixed-replace` stream:
`b'--frame\r\nContent-Type: image/jpeg\r\n\r\n' + bytes + b'\r\n'`. -/
structure MjpegChunk where
  boundary : String
  content_type : String
  payload : Jpeg
  deriving DecidableEq, Repr

/-- The chunk both generators build around a JPEG buffer. -/
def mkFrameChunk (j : Jpeg) : MjpegChunk :=
  { boundary := "--frame", content_type := "image/jpeg", payload := j }

/-- The JPEG quality chosen from the `quality` request parameter
(`working_video_stream.py`, lines 152–162). -/
def jpegQualityFor (quality : String) : ℕ :=
  if quality = "low" then 50
  else if quality = "medium" then 70
  else if quality = "high" then 90
  else 85

/-- One iteration of `generate_frames` in `working_video_stream.py`
(lines 148–181): the chunks yielded while holding the lock, given the
current published frame (`none` if no frame has ever been published).  With
no frame, a placeholder frame is encoded at quality 85 and yielded. -/
def wvsGenerateIter (current_frame : Option StreamImg) (quality : String)
    (timestamp : String) : List MjpegChunk :=
  match current_frame with
  | some f => [mkFrameChunk { source := f, quality := jpegQualityFor quality }]
  | none => [mkFrameChunk { source := create_placeholder_frame timestamp, quality := 85 }]

/-- One iteration of `EnhancedDetectionService.generate_frames`
(lines 187–198): with no published frame the iteration yields nothing and
the loop just sleeps. -/
def edsGenerateIter (current_frame : Option StreamImg) : List MjpegChunk :=
  match current_frame with
  | some f => [mkFrameChunk { source := f, quality := 85 }]
  | none => []

/-- The chunks yielded by the first `n` iterations of
`working_video_stream.generate_frames`, where `frames i` is the published
frame visible at iteration `i` and `timestamps i` the wall-clock text. -/
def wvsGenerateFrames (frames : ℕ → Option StreamImg) (quality : String)
    (timestamps : ℕ → String) : ℕ → List MjpegChunk
  | 0 => []
  | n + 1 =>
      wvsGenerateFrames frames quality timestamps n ++
        wvsGenerateIter (frames n) quality (timestamps n)

/-- The chunks yielded by the first `n` iterations of
`EnhancedDetectionService.generate_frames`. -/
def edsGenerateFrames (frames : ℕ → Option StreamImg) : ℕ → List MjpegChunk
  | 0 => []
  | n + 1 => edsGenerateFrames frames n ++ edsGenerateIter (frames n)

/-- A chunk is well-formed multipart output when it carries the `--frame`
boundary and the JPEG content type of the stream's mime framing. -/
def wellFormedChunk (c : MjpegChunk) : Prop :=
  c.boundary = "--frame" ∧ c.content_type = "image/jpeg"

/-- State of `VideoStreamer` in `working_video_stream.py`: whether
`self.cap` exists and is opened, the preferred camera index, and the
fallback index list `[0, 1, 2]`. -/
structure VideoStreamer where
  cap_open : Bool
  camera_index : ℕ
  fallback_indexes : List ℕ
  deriving DecidableEq, Repr

/-- `VideoStreamer.__init__`: no capture yet, preferred index 0,
fallbacks `[0, 1, 2]`. -/
def initVideoStreamer : VideoStreamer :=
  { cap_open := false, camera_index := 0, fallback_indexes := [0, 1, 2] }

/-- The fallback loop of `initialize_camera` (lines 57–75): walk the
fallback indexes in order, skip the index already tried as primary, and
return the first index that opens.  `opens i` models
`cv2.VideoCapture(i).isOpened()`; a construction that raises is caught and
behaves like a failed open. -/
def tryFallbacks (opens : ℕ → Bool) (current : ℕ) : List ℕ → Option ℕ
  | [] => none
  | idx :: rest =>
      if idx = current then tryFallbacks opens current rest
      else if opens idx then some idx
      else tryFallbacks opens current rest

/-- `VideoStreamer.initialize_camera` (lines 37–78): an already-open
capture short-circuits; otherwise the preferred `camera_index` is tried
first, then — when `try_alternatives` — each fallback index in order, and a
successful fallback index is remembered as the new `camera_index`. -/
def initCamera (s : VideoStreamer) (opens : ℕ → Bool)
    (try_alternatives : Bool) : Bool × VideoStreamer :=
  if s.cap_open then (true, s)
  else if opens s.camera_index then (true, { s with cap_open := true })
  else if try_alternatives then
    match tryFallbacks opens s.camera_index s.fallback_indexes with
    | some idx => (true, { s with cap_open := true, camera_index := idx })
    | none => (false, s)
  else (false, s)

/-- Losing the camera connection, as observed by `_capture_loop`
(line 98): the capture is no longer open; nothing else changes, so the
remembered `camera_index` survives to the reconnect attempt. -/
def loseConnection (s : VideoStreamer) : VideoStreamer :=
  { s with cap_open := false }

/-- Specification-side description of normalization, written from the
spec's words for comparison against `processDetections`: on a table of
six-field rows, keep exactly the rows whose class index is in the mapping
and whose confidence reaches the display threshold, as
`(class_name, confidence, box)` detections. -/
def normalizedSpec (names : List (ℤ × String)) (display_threshold : ℚ)
    (rows : List (List ℚ)) : List (String × ℚ × List ℚ) :=
  rows.filterMap fun row =>
    match row with
    | [x1, y1, x2, y2, conf, cls] =>
        match names.lookup (pyInt cls) with
        | some class_name =>
            if conf ≥ display_threshold then some (class_name, conf, [x1, y1, x2, y2])
            else none
        | none => none
    | _ => none

/-- Did the call finish without raising? -/
def exceptIsOk : Except String ProcAcc → Bool
  | .ok _ => true
  | .error _ => false

/-! ## Helper lemmas -/

/-- `send_alert` never changes the configuration of the enhanced service:
thresholds, cooldown length and camera id survive every call. -/
theorem sendAlertE_preserves_config (s : EnhancedState) (c : String) (t : ℚ)
    (o : DispatchOutcome) :
    (sendAlertE s c t o).2.confidence_threshold = s.confidence_threshold ∧
    (sendAlertE s c t o).2.alert_threshold = s.alert_threshold ∧
    (sendAlertE s c t o).2.cooldown_seconds = s.cooldown_seconds ∧
    (sendAlertE s c t o).2.camera_id = s.camera_id := by
  unfold sendAlertE
  dsimp only
  split
  all_goals split
  all_goals first
    | exact ⟨rfl, rfl, rfl, rfl⟩
    | (split <;> exact ⟨rfl, rfl, rfl, rfl⟩)

/-- The boolean result of `send_alert` is true exactly when the attempt is
outside the cooldown window of the class's own clock and the backend
answered with HTTP 200: the decision depends on nothing else. -/
theorem sendAlertE_fst_true_iff (s : EnhancedState) (c : String) (t : ℚ)
    (o : DispatchOutcome) :
    (sendAlertE s c t o).1 = true ↔
      (¬(t - (if c = "gun" then s.last_gun_alert else s.last_knife_alert) <
          s.cooldown_seconds) ∧
       o = DispatchOutcome.response 200) := by
  unfold sendAlertE
  dsimp only
  split
  all_goals split
  all_goals first
    | (split <;> simp_all)
    | simp_all

/-- Inversion of a successful `send_alert`: the attempt was outside the
cooldown window of the class's own clock, the outcome was a 200 response,
and the new state is the old one with that clock set to the current time
and the counter bumped. -/
theorem sendAlertE_true_elim {s s' : EnhancedState} {c : String} {t : ℚ}
    {o : DispatchOutcome} (h : sendAlertE s c t o = (true, s')) :
    ¬(t - (if c = "gun" then s.last_gun_alert else s.last_knife_alert) <
        s.cooldown_seconds) ∧
    o = .response 200 ∧
    s' = (if c = "gun" then
            { s with last_gun_alert := t, detection_count := s.detection_count + 1 }
          else
            { s with last_knife_alert := t, detection_count := s.detection_count + 1 }) := by
  unfold sendAlertE at h
  dsimp only at h
  split at h
  case isTrue hc =>
    split at h
    case isTrue hcool => exact absurd (congrArg Prod.fst h) (by simp)
    case isFalse hcool =>
      split at h
      · injection h with h1 h2
        exact ⟨by rw [if_pos hc]; exact hcool, rfl, by rw [if_pos hc]; exact h2.symm⟩
      · exact absurd (congrArg Prod.fst h) (by simp)
      · exact absurd (congrArg Prod.fst h) (by simp)
      · exact absurd (congrArg Prod.fst h) (by simp)
  case isFalse hc =>
    split at h
    case isTrue hcool => exact absurd (congrArg Prod.fst h) (by simp)
    case isFalse hcool =>
      split at h
      · injection h with h1 h2
        exact ⟨by rw [if_neg hc]; exact hcool, rfl, by rw [if_neg hc]; exact h2.symm⟩
      · exact absurd (congrArg Prod.fst h) (by simp)
      · exact absurd (congrArg Prod.fst h) (by simp)
      · exact absurd (congrArg Prod.fst h) (by simp)

/-- An attempt inside the cooldown window of the class's own clock is
suppressed: `send_alert` returns `False` and leaves the state untouched. -/
theorem sendAlertE_suppressed (s : EnhancedState) (c : String) (t : ℚ)
    (o : DispatchOutcome)
    (h : t - (if c = "gun" then s.last_gun_alert else s.last_knife_alert) <
        s.cooldown_seconds) :
    sendAlertE s c t o = (false, s) := by
  rcases eq_or_ne c "gun" with hc | hc
  · rw [if_pos hc] at h
    simp [sendAlertE, hc, h]
  · rw [if_neg hc] at h
    simp [sendAlertE, hc, h]

/-- Any dispatch outcome other than an HTTP 200 response makes `send_alert`
return `False` with the state untouched. -/
theorem sendAlertE_of_not_ok (s : EnhancedState) (c : String) (t : ℚ)
    (o : DispatchOutcome) (h : o ≠ DispatchOutcome.response 200) :
    sendAlertE s c t o = (false, s) := by
  unfold sendAlertE
  dsimp only
  split
  all_goals split
  all_goals first
    | rfl
    | (split <;> first
        | (exact absurd rfl h)
        | rfl)

/-! ## Claim theorems -/

/-- C1 counterexample: at the literal times of the claim's scenario the
first gun attempt is NOT sent.  The service encodes "never alerted" as a
last-alert clock of `0`, so a gun detection at wall-clock time `0` (with
cooldown 10 and a succeeding dispatch) satisfies `0 - 0 < 10` and is
suppressed, contradicting "sent with clock set to 0". -/
theorem c1_scenario_counterexample :
    sendAlertE (initEnhanced (1/2) 10 "webcam-01") "gun" 0
        (DispatchOutcome.response 200)
      = (false, initEnhanced (1/2) 10 "webcam-01") := by
  norm_num [sendAlertE, initEnhanced]

/-- C1 (amended): after a successful dispatch for a class at time `t`,
every attempt for that class at `t'` with `t' - t < cooldown_seconds` is
suppressed with no state change, and an attempt at `t'` with
`t' - t ≥ cooldown_seconds` whose dispatch succeeds is sent.  The concrete
scenario holds with the timeline offset by any start time `T ≥ 10` past the
clock's epoch (true for real `time.time()`): gun detections at `T`, `T+5`,
`T+11` yield sent (clock `T`), suppressed, sent (clock `T+11`). -/
theorem c1_cooldown_per_class_window :
    (∀ (st st' : EnhancedState) (c : String) (t t' : ℚ)
        (o o' : DispatchOutcome),
        sendAlertE st c t o = (true, st') →
        (t' - t < st.cooldown_seconds → sendAlertE st' c t' o' = (false, st')) ∧
        (st.cooldown_seconds ≤ t' - t →
          (sendAlertE st' c t' (DispatchOutcome.response 200)).1 = true)) ∧
    (∀ T : ℚ, 10 ≤ T →
        (runAlertsE (initEnhanced (1/2) 10 "webcam-01")
            [("gun", T, DispatchOutcome.response 200),
             ("gun", T + 5, DispatchOutcome.response 200),
             ("gun", T + 11, DispatchOutcome.response 200)]).2
          = [true, false, true] ∧
        (sendAlertE (initEnhanced (1/2) 10 "webcam-01") "gun" T
            (DispatchOutcome.response 200)).2.last_gun_alert = T ∧
        (runAlertsE (initEnhanced (1/2) 10 "webcam-01")
            [("gun", T, DispatchOutcome.response 200),
             ("gun", T + 5, DispatchOutcome.response 200),
             ("gun", T + 11, DispatchOutcome.response 200)]).1.last_gun_alert
          = T + 11) := by
  constructor
  · intro st st' c t t' o o' h
    obtain ⟨hcool, ho, hst⟩ := sendAlertE_true_elim h
    have hclock : (if c = "gun" then st'.last_gun_alert else st'.last_knife_alert) = t := by
      rcases eq_or_ne c "gun" with hc | hc
      · rw [hst, if_pos hc, if_pos hc]
      · rw [hst, if_neg hc, if_neg hc]
    have hcd : st'.cooldown_seconds = st.cooldown_seconds := by
      rcases eq_or_ne c "gun" with hc | hc
      · rw [hst, if_pos hc]
      · rw [hst, if_neg hc]
    constructor
    · intro hlt
      apply sendAlertE_suppressed
      rw [hclock, hcd]
      exact hlt
    · intro hge
      rw [sendAlertE_fst_true_iff]
      refine ⟨?_, rfl⟩
      rw [hclock, hcd]
      exact not_lt.mpr hge
  · intro T hT
    have h0 : ¬(T < 10) := not_lt.mpr hT
    have e1 : sendAlertE (initEnhanced (1/2) 10 "webcam-01") "gun" T
        (DispatchOutcome.response 200)
        = (true, { initEnhanced (1/2) 10 "webcam-01" with
                     last_gun_alert := T, detection_count := 1 }) := by
      simp [sendAlertE, initEnhanced, h0]
    have e2 : sendAlertE { initEnhanced (1/2) 10 "webcam-01" with
          last_gun_alert := T, detection_count := 1 } "gun" (T + 5)
        (DispatchOutcome.response 200)
        = (false, { initEnhanced (1/2) 10 "webcam-01" with
                      last_gun_alert := T, detection_count := 1 }) := by
      apply sendAlertE_suppressed
      simp [initEnhanced]
      norm_num
    have e3 : sendAlertE { initEnhanced (1/2) 10 "webcam-01" with
          last_gun_alert := T, detection_count := 1 } "gun" (T + 11)
        (DispatchOutcome.response 200)
        = (true, { initEnhanced (1/2) 10 "webcam-01" with
                     last_gun_alert := T + 11, detection_count := 2 }) := by
      simp [sendAlertE, initEnhanced]
      norm_num
    simp only [runAlertsE]
    rw [e1]
    dsimp only
    rw [e2]
    dsimp only
    rw [e3]
    dsimp only
    exact ⟨rfl, rfl, rfl⟩

/-- C1 witness: the general cooldown property applied after a successful
gun dispatch at time 100, and the offset scenario at `T = 100`. -/
theorem c1_cooldown_per_class_window_witness :
    sendAlertE { confidence_threshold := 1/2, alert_threshold := 7/10,
                 cooldown_seconds := 10, camera_id := "webcam-01",
                 detection_count := 1, last_gun_alert := 100,
                 last_knife_alert := 0 } "gun" 105 (DispatchOutcome.response 200)
      = (false, { confidence_threshold := 1/2, alert_threshold := 7/10,
                  cooldown_seconds := 10, camera_id := "webcam-01",
                  detection_count := 1, last_gun_alert := 100,
                  last_knife_alert := 0 }) ∧
    (runAlertsE (initEnhanced (1/2) 10 "webcam-01")
        [("gun", 100, DispatchOutcome.response 200),
         ("gun", 100 + 5, DispatchOutcome.response 200),
         ("gun", 100 + 11, DispatchOutcome.response 200)]).2
      = [true, false, true] := by
  constructor
  · exact (c1_cooldown_per_class_window.1 (initEnhanced (1/2) 10 "webcam-01")
      _ "gun" 100 105 (DispatchOutcome.response 200) (DispatchOutcome.response 200)
      (by norm_num [sendAlertE, initEnhanced])).1 (by norm_num [initEnhanced])
  · exact (c1_cooldown_per_class_window.2 100 (by norm_num)).1

/-- C2: a failed dispatch (non-200 response or a raised transport/other
exception) returns `False` and leaves the whole state — in particular the
class's last-alert clock — exactly as it was, so a later attempt behaves as
if the failed attempt never happened. -/
theorem c2_failed_dispatch_keeps_clock :
    ∀ (st : EnhancedState) (c : String) (t : ℚ) (o : DispatchOutcome),
      o ≠ DispatchOutcome.response 200 →
      (sendAlertE st c t o).1 = false ∧
      (sendAlertE st c t o).2 = st ∧
      ∀ (c' : String) (t' : ℚ) (o' : DispatchOutcome),
        sendAlertE (sendAlertE st c t o).2 c' t' o' = sendAlertE st c' t' o' := by
  intro st c t o h
  rw [sendAlertE_of_not_ok st c t o h]
  exact ⟨rfl, rfl, fun c' t' o' => rfl⟩

/-- C2 witness: a rejected dispatch (HTTP 500) for gun at time 100 leaves
the fresh service state unchanged and does not affect the next attempt. -/
theorem c2_failed_dispatch_keeps_clock_witness :
    (sendAlertE (initEnhanced (1/2) 10 "webcam-01") "gun" 100
        (DispatchOutcome.response 500)).1 = false ∧
    (sendAlertE (initEnhanced (1/2) 10 "webcam-01") "gun" 100
        (DispatchOutcome.response 500)).2 = initEnhanced (1/2) 10 "webcam-01" ∧
    sendAlertE (sendAlertE (initEnhanced (1/2) 10 "webcam-01") "gun" 100
        (DispatchOutcome.response 500)).2 "gun" 101 (DispatchOutcome.response 200)
      = sendAlertE (initEnhanced (1/2) 10 "webcam-01") "gun" 101
          (DispatchOutcome.response 200) := by
  obtain ⟨h1, h2, h3⟩ := c2_failed_dispatch_keeps_clock
    (initEnhanced (1/2) 10 "webcam-01") "gun" 100 (DispatchOutcome.response 500)
    (by decide)
  exact ⟨h1, h2, h3 "gun" 101 (DispatchOutcome.response 200)⟩

/-- A gun `send_alert` on the enhanced service never touches the knife
clock, whatever its outcome. -/
theorem sendAlertE_gun_keeps_knife (s : EnhancedState) (t : ℚ)
    (o : DispatchOutcome) :
    (sendAlertE s "gun" t o).2.last_knife_alert = s.last_knife_alert := by
  unfold sendAlertE
  dsimp only
  split
  case isFalse hc => exact absurd rfl hc
  case isTrue hc =>
    split
    · rfl
    · split <;> rfl

/-- A knife `send_alert` on the enhanced service never touches the gun
clock, whatever its outcome. -/
theorem sendAlertE_knife_keeps_gun (s : EnhancedState) (t : ℚ)
    (o : DispatchOutcome) :
    (sendAlertE s "knife" t o).2.last_gun_alert = s.last_gun_alert := by
  unfold sendAlertE
  dsimp only
  split
  case isTrue hc => exact absurd hc (by decide)
  case isFalse hc =>
    split
    · rfl
    · split <;> rfl

/-- The boolean result of `send_alert` is the same on two states that agree
on the attempted class's clock and on the cooldown length. -/
theorem sendAlertE_fst_congr (s₁ s₂ : EnhancedState) (c : String) (t : ℚ)
    (o : DispatchOutcome)
    (hclock : (if c = "gun" then s₁.last_gun_alert else s₁.last_knife_alert)
            = (if c = "gun" then s₂.last_gun_alert else s₂.last_knife_alert))
    (hcd : s₁.cooldown_seconds = s₂.cooldown_seconds) :
    (sendAlertE s₁ c t o).1 = (sendAlertE s₂ c t o).1 := by
  cases h2 : (sendAlertE s₂ c t o).1
  · cases h1 : (sendAlertE s₁ c t o).1
    · rfl
    · rw [sendAlertE_fst_true_iff] at h1
      have h2' := (sendAlertE_fst_true_iff s₂ c t o).mpr
        ⟨by rw [← hclock, ← hcd]; exact h1.1, h1.2⟩
      rw [h2] at h2'
      exact absurd h2' (by simp)
  · rw [sendAlertE_fst_true_iff] at h2 ⊢
    exact ⟨by rw [hclock, hcd]; exact h2.1, h2.2⟩

/-- C3 counterexample: in `GunDetectionService` — one of the claim's cited
code locations — gun and knife DO share a cooldown clock.  After a
successful gun alert at time 100 (cooldown 10), a knife attempt at time 105
with a succeeding dispatch is suppressed by the shared `last_alert_time`. -/
theorem c3_shared_clock_counterexample :
    (sendAlertG (initGunService (1/2) 10 "webcam-01") "gun" 100
        (DispatchOutcome.response 200)).1 = true ∧
    sendAlertG (sendAlertG (initGunService (1/2) 10 "webcam-01") "gun" 100
        (DispatchOutcome.response 200)).2 "knife" 105 (DispatchOutcome.response 200)
      = (false, (sendAlertG (initGunService (1/2) 10 "webcam-01") "gun" 100
          (DispatchOutcome.response 200)).2) := by
  constructor <;> norm_num [sendAlertG, initGunService]

/-- C3 (amended): in `EnhancedDetectionService` the two classes have fully
independent clocks — a gun `send_alert` (successful or not) never changes
the knife clock nor the outcome of any knife attempt, and vice versa — but
in `GunDetectionService` every class shares the single `last_alert_time`
clock, so there a successful gun alert does suppress a knife alert inside
the window. -/
theorem c3_independent_clocks_enhanced :
    ∀ (st : EnhancedState) (t t' : ℚ) (o o' : DispatchOutcome),
      (sendAlertE st "gun" t o).2.last_knife_alert = st.last_knife_alert ∧
      (sendAlertE st "knife" t o).2.last_gun_alert = st.last_gun_alert ∧
      (sendAlertE (sendAlertE st "gun" t o).2 "knife" t' o').1
        = (sendAlertE st "knife" t' o').1 ∧
      (sendAlertE (sendAlertE st "knife" t o).2 "gun" t' o').1
        = (sendAlertE st "gun" t' o').1 := by
  intro st t t' o o'
  refine ⟨sendAlertE_gun_keeps_knife st t o, sendAlertE_knife_keeps_gun st t o, ?_, ?_⟩
  · apply sendAlertE_fst_congr
    · rw [if_neg (by decide : ¬("knife" = "gun")), if_neg (by decide : ¬("knife" = "gun"))]
      exact sendAlertE_gun_keeps_knife st t o
    · exact (sendAlertE_preserves_config st "gun" t o).2.2.1
  · apply sendAlertE_fst_congr
    · rw [if_pos (rfl : ("gun" : String) = "gun"), if_pos (rfl : ("gun" : String) = "gun")]
      exact sendAlertE_knife_keeps_gun st t o
    · exact (sendAlertE_preserves_config st "knife" t o).2.2.1

/-- C9 counterexample: a 201 response — a 2xx status — is treated as a
rejected dispatch: the method returns `False` and does not update the
state, although the very same attempt with a 200 response succeeds (so the
failure is not due to the cooldown). -/
theorem c9_2xx_counterexample :
    (sendAlertE (initEnhanced (1/2) 10 "webcam-01") "gun" 100
        (DispatchOutcome.response 201)).1 = false ∧
    (sendAlertE (initEnhanced (1/2) 10 "webcam-01") "gun" 100
        (DispatchOutcome.response 201)).2 = initEnhanced (1/2) 10 "webcam-01" ∧
    ((200 : ℕ) ≤ 201 ∧ (201 : ℕ) < 300) ∧
    (sendAlertE (initEnhanced (1/2) 10 "webcam-01") "gun" 100
        (DispatchOutcome.response 200)).1 = true := by
  refine ⟨?_, ?_, by norm_num, ?_⟩ <;> norm_num [sendAlertE, initEnhanced]

/-- C9 (amended): outside the cooldown window an alert dispatch reports
success if and only if the backend's HTTP status is exactly 200 (any other
status, 2xx included, counts as rejected), and a transport failure or any
other exception makes `send_alert` return `False` with the state untouched
instead of propagating the exception. -/
theorem c9_success_iff_200 :
    (∀ (st : EnhancedState) (c : String) (t : ℚ) (status : ℕ),
        ¬(t - (if c = "gun" then st.last_gun_alert else st.last_knife_alert) <
            st.cooldown_seconds) →
        ((sendAlertE st c t (DispatchOutcome.response status)).1 = true ↔
          status = 200)) ∧
    (∀ (st : EnhancedState) (c : String) (t : ℚ),
        sendAlertE st c t DispatchOutcome.requestException = (false, st) ∧
        sendAlertE st c t DispatchOutcome.otherException = (false, st)) := by
  constructor
  · intro st c t status h
    rw [sendAlertE_fst_true_iff]
    simp [h]
  · intro st c t
    exact ⟨sendAlertE_of_not_ok st c t _ (by simp),
           sendAlertE_of_not_ok st c t _ (by simp)⟩

/-- C9 witness: a fresh service at time 100 — outside the cooldown window —
rejects a 204 response, and a transport exception is swallowed. -/
theorem c9_success_iff_200_witness :
    ((sendAlertE (initEnhanced (1/2) 10 "webcam-01") "gun" 100
        (DispatchOutcome.response 204)).1 = true ↔ (204 : ℕ) = 200) ∧
    sendAlertE (initEnhanced (1/2) 10 "webcam-01") "gun" 100
        DispatchOutcome.requestException
      = (false, initEnhanced (1/2) 10 "webcam-01") := by
  constructor
  · exact c9_success_iff_200.1 (initEnhanced (1/2) 10 "webcam-01") "gun" 100 204
      (by norm_num [initEnhanced])
  · exact (c9_success_iff_200.2 (initEnhanced (1/2) 10 "webcam-01") "gun" 100).1

/-- One `send_alert` call bumps `detection_count` by one exactly when it
returns `True`, and leaves it alone otherwise. -/
theorem sendAlertE_count (s : EnhancedState) (c : String) (t : ℚ)
    (o : DispatchOutcome) :
    (sendAlertE s c t o).2.detection_count
      = s.detection_count + (if (sendAlertE s c t o).1 = true then 1 else 0) := by
  unfold sendAlertE
  dsimp only
  split
  all_goals split
  all_goals first
    | simp
    | (split <;> simp)

/-- Over any call sequence, the final `detection_count` is the initial one
plus the number of calls that returned `True`. -/
theorem runAlertsE_detection_count (calls : List (String × ℚ × DispatchOutcome)) :
    ∀ st : EnhancedState,
      (runAlertsE st calls).1.detection_count
        = st.detection_count + (runAlertsE st calls).2.count true := by
  induction calls with
  | nil => intro st; simp [runAlertsE]
  | cons a rest ih =>
    intro st
    obtain ⟨ty, t, o⟩ := a
    simp only [runAlertsE]
    rw [ih, sendAlertE_count, List.count_cons]
    cases hb : (sendAlertE st ty t o).1 <;> simp [hb] <;> ring

/-- C10: `detection_count` — the value served by `/api/status` — counts
successful dispatches: each `send_alert` call bumps it by one exactly when
it returns `True` (dispatch accepted with HTTP 200), never on a suppressed,
rejected or failed attempt, so after any call sequence from a fresh service
it equals the number of successful dispatches. -/
theorem c10_detection_count :
    (∀ (st : EnhancedState) (c : String) (t : ℚ) (o : DispatchOutcome),
        (sendAlertE st c t o).2.detection_count
          = st.detection_count + (if (sendAlertE st c t o).1 = true then 1 else 0)) ∧
    (∀ (ct cd : ℚ) (cam : String) (calls : List (String × ℚ × DispatchOutcome)),
        (apiStatus (runAlertsE (initEnhanced ct cd cam) calls).1).detection_count
          = (runAlertsE (initEnhanced ct cd cam) calls).2.count true) := by
  constructor
  · exact sendAlertE_count
  · intro ct cd cam calls
    show (runAlertsE (initEnhanced ct cd cam) calls).1.detection_count = _
    rw [runAlertsE_detection_count]
    simp [initEnhanced]

/-- The fallback walk is the first opening index among the fallbacks other
than the one already tried. -/
theorem tryFallbacks_eq_find (opens : ℕ → Bool) (current : ℕ) :
    ∀ l : List ℕ,
      tryFallbacks opens current l
        = (l.filter (fun i => i != current)).find? opens := by
  intro l
  induction l with
  | nil => rfl
  | cons idx rest ih =>
    by_cases h : idx = current
    · simp [tryFallbacks, h, List.filter_cons, ih]
    · by_cases ho : opens idx
      · simp [tryFallbacks, h, ho, List.filter_cons, List.find?_cons_of_pos]
      · simp [tryFallbacks, h, ho, List.filter_cons, List.find?_cons_of_neg, ih]

/-- C7 counterexample: a consumer of `EnhancedDetectionService`'s
`generate_frames` that starts before any frame has been published receives
nothing at all — here five loop iterations with no published frame yield no
chunk, and in particular no placeholder frame. -/
theorem c7_eds_no_placeholder_counterexample :
    edsGenerateFrames (fun _ => none) 5 = [] := by
  rfl

/-- C7 (amended): `working_video_stream.generate_frames` yields a
well-formed placeholder chunk (solid black background plus status text,
JPEG at quality 85 in the multipart framing) on every iteration where no
frame has ever been published, so an early consumer is never starved; but
`EnhancedDetectionService.generate_frames` yields nothing at all until a
frame is published — its early consumers block. -/
theorem c7_placeholder_stream :
    (∀ quality timestamp : String,
        wvsGenerateIter none quality timestamp
          = [mkFrameChunk { source := create_placeholder_frame timestamp,
                            quality := 85 }] ∧
        wellFormedChunk (mkFrameChunk { source := create_placeholder_frame timestamp,
                                        quality := 85 }) ∧
        (create_placeholder_frame timestamp).base_color = (0, 0, 0) ∧
        (create_placeholder_frame timestamp).texts ≠ []) ∧
    (∀ (quality : String) (timestamps : ℕ → String) (n : ℕ),
        (wvsGenerateFrames (fun _ => none) quality timestamps (n + 1)).length
          = n + 1) ∧
    (∀ n : ℕ, edsGenerateFrames (fun _ => none) n = []) := by
  refine ⟨?_, ?_, ?_⟩
  · intro q ts
    exact ⟨rfl, ⟨rfl, rfl⟩, rfl, by simp [create_placeholder_frame]⟩
  · intro q ts n
    induction n with
    | zero => rfl
    | succ k ih => simp [wvsGenerateFrames, wvsGenerateIter] at ih ⊢; omega
  · intro n
    induction n with
    | zero => rfl
    | succ k ih => simp [edsGenerateFrames, edsGenerateIter, ih]

/-- C8: camera open tries the preferred `camera_index` first (keeping it on
success), otherwise walks the fallback indexes in order and remembers the
first one that opens as the new preferred index; consequently in the
scenario where index 0 fails and fallback index 2 succeeds, a later
reconnect (after the connection is lost) tries and keeps index 2 even
though index 0 would now open. -/
theorem c8_camera_fallback :
    (∀ (opens : ℕ → Bool) (s : VideoStreamer),
        s.cap_open = false → opens s.camera_index = true →
        initCamera s opens true = (true, { s with cap_open := true })) ∧
    (∀ (opens : ℕ → Bool) (s : VideoStreamer),
        s.cap_open = false → opens s.camera_index = false →
        initCamera s opens true
          = match (s.fallback_indexes.filter
                (fun i => i != s.camera_index)).find? opens with
            | some idx => (true, { s with cap_open := true, camera_index := idx })
            | none => (false, s)) ∧
    (initCamera initVideoStreamer (fun i => i == 2) true
        = (true, VideoStreamer.mk true 2 [0, 1, 2]) ∧
     initCamera (loseConnection (VideoStreamer.mk true 2 [0, 1, 2]))
          (fun i => i == 0 || i == 2) true
        = (true, VideoStreamer.mk true 2 [0, 1, 2])) := by
  refine ⟨?_, ?_, by decide, by decide⟩
  · intro opens s h1 h2
    simp [initCamera, h1, h2]
  · intro opens s h1 h2
    unfold initCamera
    rw [tryFallbacks_eq_find]
    simp [h1, h2]

/-- C8 witness: the preferred-first case applied at a streamer whose
remembered index is 5, and the fallback case applied at a fresh streamer
whose preferred index 0 fails while 2 opens. -/
theorem c8_camera_fallback_witness :
    initCamera (VideoStreamer.mk false 5 [0, 1, 2]) (fun i => i == 5) true
      = (true, VideoStreamer.mk true 5 [0, 1, 2]) ∧
    initCamera initVideoStreamer (fun i => i == 2) true
      = match (([0, 1, 2] : List ℕ).filter (fun i => i != 0)).find?
            (fun i => i == 2) with
        | some idx => (true, VideoStreamer.mk true idx [0, 1, 2])
        | none => (false, initVideoStreamer) := by
  constructor
  · exact c8_camera_fallback.1 (fun i => i == 5)
      (VideoStreamer.mk false 5 [0, 1, 2]) rfl (by decide)
  · exact c8_camera_fallback.2.1 (fun i => i == 2) initVideoStreamer rfl (by decide)

/-- Along the detection loop the thresholds never change, and every
`send_alert` attempt the loop adds was guarded by both thresholds. -/
theorem procRows_config_attempts (sa : Bool) (oracle : ℕ → DispatchOutcome)
    (now : ℚ) (names : List (ℤ × String)) :
    ∀ (rows : List (List ℚ)) (acc r : ProcAcc),
      procRows sa oracle now names rows acc = .ok r →
      r.state.confidence_threshold = acc.state.confidence_threshold ∧
      r.state.alert_threshold = acc.state.alert_threshold ∧
      ∀ a ∈ r.attempts,
        a ∈ acc.attempts ∨
          (acc.state.alert_threshold ≤ a.2 ∧
           acc.state.confidence_threshold ≤ a.2) := by
  intro rows
  induction rows with
  | nil =>
    intro acc r h
    rw [procRows] at h
    injection h with h'
    subst h'
    exact ⟨rfl, rfl, fun a ha => Or.inl ha⟩
  | cons row rest ih =>
    intro acc r h
    rw [procRows] at h
    split at h
    · exact ih acc r h
    · split at h
      next x1 y1 x2 y2 conf cls heq =>
        dsimp only at h
        split at h
        · exact ih acc r h
        next class_name heq2 =>
          split at h
          case isTrue hconf =>
            split at h
            case isTrue hweap =>
              split at h
              case isTrue halert =>
                split at h
                case isTrue hsend =>
                  obtain ⟨h1, h2, h3⟩ := ih _ r h
                  dsimp only at h1 h2 h3
                  rw [(sendAlertE_preserves_config _ _ _ _).1] at h1
                  rw [(sendAlertE_preserves_config _ _ _ _).2.1] at h2
                  refine ⟨h1, h2, fun a ha => ?_⟩
                  rcases h3 a ha with hmem | hbound
                  · rcases List.mem_append.mp hmem with hold | hnew
                    · exact Or.inl hold
                    · have ha2 : a.2 = conf := by
                        rw [List.mem_singleton.mp hnew]
                      exact Or.inr ⟨by rw [ha2]; exact halert, by rw [ha2]; exact hconf⟩
                  · rw [(sendAlertE_preserves_config _ _ _ _).1,
                        (sendAlertE_preserves_config _ _ _ _).2.1] at hbound
                    exact Or.inr hbound
                case isFalse hsend =>
                  obtain ⟨h1, h2, h3⟩ := ih _ r h
                  exact ⟨h1, h2, h3⟩
              case isFalse halert =>
                obtain ⟨h1, h2, h3⟩ := ih _ r h
                exact ⟨h1, h2, h3⟩
            case isFalse hweap =>
              obtain ⟨h1, h2, h3⟩ := ih _ r h
              exact ⟨h1, h2, h3⟩
          case isFalse hconf => exact ih acc r h
      next => exact absurd h (by simp)

/-- With `send_alerts=False` the detection loop never dispatches: no
`send_alert` attempt is recorded, no dispatch outcome is consumed, and the
alerting state is untouched. -/
theorem procRows_no_send (oracle : ℕ → DispatchOutcome) (now : ℚ)
    (names : List (ℤ × String)) :
    ∀ (rows : List (List ℚ)) (acc r : ProcAcc),
      procRows false oracle now names rows acc = .ok r →
      r.attempts = acc.attempts ∧ r.state = acc.state ∧
        r.oracle_idx = acc.oracle_idx := by
  intro rows
  induction rows with
  | nil =>
    intro acc r h
    rw [procRows] at h
    injection h with h'
    subst h'
    exact ⟨rfl, rfl, rfl⟩
  | cons row rest ih =>
    intro acc r h
    rw [procRows] at h
    split at h
    · exact ih acc r h
    · split at h
      next x1 y1 x2 y2 conf cls heq =>
        dsimp only at h
        split at h
        · exact ih acc r h
        next class_name heq2 =>
          split at h
          case isTrue hconf =>
            split at h
            case isTrue hweap =>
              split at h
              case isTrue halert =>
                split at h
                case isTrue hsend => exact absurd hsend (by simp)
                case isFalse hsend =>
                  have hh := ih _ r h
                  exact hh
              case isFalse halert =>
                have hh := ih _ r h
                exact hh
            case isFalse hweap =>
              have hh := ih _ r h
              exact hh
          case isFalse hconf => exact ih acc r h
      next => exact absurd h (by simp)

/-- The detection loop only ever appends to the frame buffer. -/
theorem procRows_frame_mono (sa : Bool) (oracle : ℕ → DispatchOutcome)
    (now : ℚ) (names : List (ℤ × String)) :
    ∀ (rows : List (List ℚ)) (acc r : ProcAcc),
      procRows sa oracle now names rows acc = .ok r →
      acc.frame.length ≤ r.frame.length := by
  intro rows
  induction rows with
  | nil =>
    intro acc r h
    rw [procRows] at h
    injection h with h'
    subst h'
    exact le_refl _
  | cons row rest ih =>
    intro acc r h
    rw [procRows] at h
    split at h
    · exact ih acc r h
    · split at h
      next x1 y1 x2 y2 conf cls heq =>
        dsimp only at h
        split at h
        · exact ih acc r h
        next class_name heq2 =>
          split at h
          case isTrue hconf =>
            split at h
            case isTrue hweap =>
              split at h
              case isTrue halert =>
                split at h
                case isTrue hsend =>
                  refine le_trans ?_ (ih _ r h)
                  simp
                case isFalse hsend =>
                  refine le_trans ?_ (ih _ r h)
                  simp
              case isFalse halert =>
                refine le_trans ?_ (ih _ r h)
                simp
            case isFalse hweap =>
              refine le_trans ?_ (ih _ r h)
              simp
          case isFalse hconf => exact ih acc r h
      next => exact absurd h (by simp)

/-- As long as no row is wider than 6 fields, the detection loop never
raises: it always returns `ok`. -/
theorem procRows_ok_of_narrow (sa : Bool) (oracle : ℕ → DispatchOutcome)
    (now : ℚ) (names : List (ℤ × String)) :
    ∀ (rows : List (List ℚ)) (acc : ProcAcc),
      (∀ row ∈ rows, row.length ≤ 6) →
      ∃ r, procRows sa oracle now names rows acc = .ok r := by
  intro rows
  induction rows with
  | nil =>
    intro acc hn
    exact ⟨acc, by rw [procRows]⟩
  | cons row rest ih =>
    intro acc hn
    have hrow : row.length ≤ 6 := hn row (List.mem_cons_self row rest)
    have hrest : ∀ q ∈ rest, q.length ≤ 6 :=
      fun q hq => hn q (List.mem_cons_of_mem _ hq)
    rw [procRows]
    by_cases hlt : row.length < 6
    · rw [if_pos hlt]
      exact ih acc hrest
    · rw [if_neg hlt]
      have h6 : row.length = 6 := le_antisymm hrow (not_lt.mp hlt)
      obtain ⟨a, b, c, d, e, f, hrow6⟩ :
          ∃ a b c d e f, row = [a, b, c, d, e, f] := by
        rcases row with _ | ⟨a, _ | ⟨b, _ | ⟨c, _ | ⟨d, _ | ⟨e, _ | ⟨f, _ | ⟨g, tl⟩⟩⟩⟩⟩⟩⟩ <;>
          first
            | exact ⟨_, _, _, _, _, _, rfl⟩
            | simp_all
      subst hrow6
      simp only [unpackRow]
      try dsimp only
      split
      · exact ih acc hrest
      · split
        next hconf =>
          split
          next hweap =>
            split
            next halert =>
              split
              next hsend => exact ih _ hrest
              next hsend => exact ih _ hrest
            next halert => exact ih _ hrest
          next hweap => exact ih _ hrest
        next hconf => exact ih acc hrest

/-- On a table of exactly-6-field rows, the detection list the loop builds
is precisely the specification-side normalization: rows with unknown class
index are dropped, rows at or above the display threshold are kept. -/
theorem procRows_detections (sa : Bool) (oracle : ℕ → DispatchOutcome)
    (now : ℚ) (names : List (ℤ × String)) (ct : ℚ) :
    ∀ (rows : List (List ℚ)) (acc r : ProcAcc),
      (∀ row ∈ rows, row.length = 6) →
      acc.state.confidence_threshold = ct →
      procRows sa oracle now names rows acc = .ok r →
      r.detections = acc.detections ++ normalizedSpec names ct rows := by
  intro rows
  induction rows with
  | nil =>
    intro acc r hn hct h
    rw [procRows] at h
    injection h with h'
    subst h'
    simp [normalizedSpec]
  | cons row rest ih =>
    intro acc r hn hct h
    have h6 : row.length = 6 := hn row (List.mem_cons_self row rest)
    have hrest : ∀ q ∈ rest, q.length = 6 :=
      fun q hq => hn q (List.mem_cons_of_mem _ hq)
    obtain ⟨a, b, c, d, e, f, hrow6⟩ :
        ∃ a b c d e f, row = [a, b, c, d, e, f] := by
      rcases row with _ | ⟨a, _ | ⟨b, _ | ⟨c, _ | ⟨d, _ | ⟨e, _ | ⟨f, _ | ⟨g, tl⟩⟩⟩⟩⟩⟩⟩ <;>
        first
          | exact ⟨_, _, _, _, _, _, rfl⟩
          | simp_all
    subst hrow6
    rw [procRows] at h
    rw [if_neg (by simp)] at h
    simp only [unpackRow] at h
    try dsimp only at h
    rw [normalizedSpec, List.filterMap_cons]
    try dsimp only
    split at h
    next hlook =>
      rw [hlook]
      dsimp only
      exact ih acc r hrest hct h
    next class_name hlook =>
      rw [hlook]
      rw [hct] at h
      split at h
      case isTrue hconf =>
        dsimp only
        rw [if_pos hconf]
        dsimp only
        split at h
        case isTrue hweap =>
          split at h
          case isTrue halert =>
            split at h
            case isTrue hsend =>
              rw [ih _ r hrest (by dsimp only; rw [(sendAlertE_preserves_config _ _ _ _).1, hct]) h]
              simp [normalizedSpec]
            case isFalse hsend =>
              rw [ih _ r hrest (by dsimp only; exact hct) h]
              simp [normalizedSpec]
          case isFalse halert =>
            rw [ih _ r hrest (by dsimp only; exact hct) h]
            simp [normalizedSpec]
        case isFalse hweap =>
          rw [ih _ r hrest (by dsimp only; exact hct) h]
          simp [normalizedSpec]
      case isFalse hconf =>
        dsimp only
        rw [if_neg hconf]
        dsimp only
        exact ih acc r hrest hct h

/-- A table with a definite width gives every row that width. -/
theorem uniformWidth_mem {t : List (List ℚ)} {w : ℕ}
    (h : uniformWidth t = some w) :
    ∀ row ∈ t, row.length = w := by
  cases t with
  | nil => intro row hr; exact absurd hr (List.not_mem_nil row)
  | cons r rs =>
    rw [uniformWidth] at h
    split at h
    next hall =>
      injection h with h'
      subst h'
      intro row hr
      rcases List.mem_cons.mp hr with hhead | hmem
      · rw [hhead]
      · have hb := List.all_eq_true.mp hall row hmem
        simpa using hb
    next => exact absurd h (by simp)

/-- The shape validation keeps a table of width exactly 6 unchanged. -/
theorem validatePred_of_w6 {t : List (List ℚ)}
    (h : uniformWidth t = some 6) :
    validatePred t = t := by
  unfold validatePred npSize
  rw [h]
  dsimp only
  split
  · rfl
  · norm_num

/-- Concrete run of `process_detections`: one gun box at confidence 0.9 on
a fresh default service with alerting on and an accepting backend — the
box is sent, the clock moves to the current time, and six drawing calls
land in the caller's empty frame buffer. -/
theorem processDetections_gun_map_eval :
    (processDetections (initEnhanced (1/2) 10 "cam")
        (.resultsList [⟨0, 0, 10, 10, 9/10, 0⟩]) [(0, "gun"), (1, "knife")] []
        true (fun _ => .response 200) 100).map
      (fun r => (r.attempts, r.state.last_gun_alert, r.frame.length, r.detections))
    = .ok ([("gun", 9/10)], 100, 6, [("gun", 9/10, [0, 0, 10, 10])]) := by
  have hw : isWeaponName "gun" = true := by decide
  have hg : isGunName "gun" = true := by decide
  have hp : pyInt 0 = 0 := by decide
  norm_num [processDetections, procRows, validatePred, rawPred, uboxRow, npSize,
    uniformWidth, unpackRow, sendAlertE, initEnhanced, detDrawOps, List.lookup,
    hw, hg, hp, Except.map]

/-- C4 counterexample: `confidence_threshold = 0.8` is a configuration the
program accepts (the CLI validates only `0.0 <= c <= 1.0`), and under it
the hardcoded alert threshold 0.7 is NOT strictly higher than the display
threshold. -/
theorem c4_threshold_counterexample :
    ((0:ℚ) ≤ 8/10 ∧ (8/10:ℚ) ≤ 1) ∧
    ¬((initEnhanced (8/10) 10 "webcam-01").confidence_threshold
        < (initEnhanced (8/10) 10 "webcam-01").alert_threshold) := by
  norm_num [initEnhanced]

/-- C4 (amended): the alert threshold is fixed at 0.7 for every
configuration; it is strictly higher than the display threshold exactly
when the configured display threshold is below 0.7 (true for the defaults
0.5 and 0.3); and every dispatch `process_detections` attempts is for a
confidence at or above both thresholds. -/
theorem c4_alert_threshold :
    (∀ (ct cd : ℚ) (cam : String),
        (initEnhanced ct cd cam).alert_threshold = 7/10 ∧
        (ct < 7/10 →
          (initEnhanced ct cd cam).confidence_threshold
            < (initEnhanced ct cd cam).alert_threshold)) ∧
    (∀ (st : EnhancedState) (results : RawResults) (names : List (ℤ × String))
        (frame : List DrawOp) (sa : Bool) (oracle : ℕ → DispatchOutcome)
        (now : ℚ) (r : ProcAcc),
        processDetections st results names frame sa oracle now = .ok r →
        ∀ a ∈ r.attempts,
          st.alert_threshold ≤ a.2 ∧ st.confidence_threshold ≤ a.2) := by
  constructor
  · intro ct cd cam
    exact ⟨rfl, fun h => h⟩
  · intro st results names frame sa oracle now r h
    unfold processDetections at h
    dsimp only at h
    split at h
    · exact absurd h (by simp)
    next acc heq =>
      injection h with h'
      subst h'
      intro a ha
      obtain ⟨h1, h2, h3⟩ := procRows_config_attempts sa oracle now names _ _ acc heq
      rcases h3 a ha with hmem | hbound
      · exact absurd hmem (List.not_mem_nil a)
      · exact hbound

/-- C4 witness: under the default display threshold 0.5 the alert
threshold is strictly higher, and the concrete gun dispatch at confidence
0.9 is above both thresholds. -/
theorem c4_alert_threshold_witness :
    (initEnhanced (3/10) 10 "webcam-01").confidence_threshold
      < (initEnhanced (3/10) 10 "webcam-01").alert_threshold ∧
    ((initEnhanced (1/2) 10 "cam").alert_threshold ≤ 9/10 ∧
     (initEnhanced (1/2) 10 "cam").confidence_threshold ≤ 9/10) := by
  constructor
  · exact (c4_alert_threshold.1 (3/10) 10 "webcam-01").2 (by norm_num)
  · rcases hE : processDetections (initEnhanced (1/2) 10 "cam")
        (.resultsList [⟨0, 0, 10, 10, 9/10, 0⟩]) [(0, "gun"), (1, "knife")] []
        true (fun _ => .response 200) 100 with e | r
    · have hm := processDetections_gun_map_eval
      rw [hE] at hm
      exact absurd hm (by simp [Except.map])
    · have hm := processDetections_gun_map_eval
      rw [hE] at hm
      simp only [Except.map, Except.ok.injEq, Prod.mk.injEq] at hm
      exact (c4_alert_threshold.2 (initEnhanced (1/2) 10 "cam") _ _ _ _ _ _ r hE)
        ("gun", 9/10) (by rw [hm.1]; exact List.mem_singleton_self _)

/-- C5 counterexample: a raw result whose table has one 7-field row — a
(1,7) array arriving through the YOLOv5 `results.xyxy` path — passes the
shape validation (width 7 is not below 6) and then raises `ValueError` at
the 6-way unpacking, so normalization does NOT always avoid exceptions. -/
theorem c5_wide_row_counterexample :
    processDetections (initEnhanced (1/2) 10 "webcam-01")
        (.v5Table [[0, 0, 10, 10, 9/10, 0, 42]]) [(0, "gun")] [] false
        (fun _ => .response 200) 100
      = .error "ValueError: too many values to unpack (expected 6)" := by
  norm_num [processDetections, procRows, validatePred, rawPred, npSize,
    uniformWidth, unpackRow]

/-- C5 (amended): provided no surviving row is wider than 6 fields,
normalization never raises; a rectangular table of width exactly 6 is
normalized to precisely the rows with known class index and confidence at
or above the display threshold (so bad-class rows are dropped while the
rest are processed); narrower or non-rectangular tables are discarded
wholesale by the shape validation; and an unrecognized raw-result shape
yields an empty detection list without an exception. -/
theorem c5_normalize :
    (∀ (st : EnhancedState) (results : RawResults) (names : List (ℤ × String))
        (frame : List DrawOp) (sa : Bool) (oracle : ℕ → DispatchOutcome) (now : ℚ),
        (∀ row ∈ validatePred (rawPred results), row.length ≤ 6) →
        exceptIsOk (processDetections st results names frame sa oracle now) = true) ∧
    (∀ (st : EnhancedState) (results : RawResults) (names : List (ℤ × String))
        (frame : List DrawOp) (sa : Bool) (oracle : ℕ → DispatchOutcome) (now : ℚ)
        (r : ProcAcc),
        uniformWidth (rawPred results) = some 6 →
        processDetections st results names frame sa oracle now = .ok r →
        r.detections = normalizedSpec names st.confidence_threshold (rawPred results)) ∧
    (∀ (st : EnhancedState) (names : List (ℤ × String)) (frame : List DrawOp)
        (sa : Bool) (oracle : ℕ → DispatchOutcome) (now : ℚ) (r : ProcAcc),
        processDetections st RawResults.unrecognized names frame sa oracle now = .ok r →
        r.detections = []) := by
  refine ⟨?_, ?_, ?_⟩
  · intro st results names frame sa oracle now hn
    unfold processDetections
    dsimp only
    obtain ⟨r, hr⟩ := procRows_ok_of_narrow sa oracle now names
      (validatePred (rawPred results))
      { detections := []
        frame_detection_count := 0
        state := st
        attempts := []
        frame := frame
        oracle_idx := 0 } hn
    rw [hr]
    rfl
  · intro st results names frame sa oracle now r h6 h
    have hv := validatePred_of_w6 h6
    unfold processDetections at h
    dsimp only at h
    rw [hv] at h
    split at h
    · exact absurd h (by simp)
    next acc heq =>
      injection h with h'
      subst h'
      have hd := procRows_detections sa oracle now names st.confidence_threshold
        (rawPred results) _ acc (uniformWidth_mem h6) rfl heq
      simpa using hd
  · intro st names frame sa oracle now r h
    have hval : processDetections st RawResults.unrecognized names frame sa oracle now
        = .ok ⟨[], 0, st, [],
               frame ++ [DrawOp.summaryText 0 st.confidence_threshold], 0⟩ := rfl
    rw [hval] at h
    injection h with h'
    rw [← h']

/-- C5 witness: the narrow path (a 5-column table is reset wholesale, no
exception), the width-6 path (the gun run's detections are exactly the
spec-side normalization), and the unrecognized-shape path. -/
theorem c5_normalize_witness :
    exceptIsOk (processDetections (initEnhanced (1/2) 10 "cam")
        (.v5Table [[0, 0, 10, 10, 9/10]]) [(0, "gun")] [] false
        (fun _ => .response 200) 100) = true ∧
    [("gun", (9:ℚ)/10, [0, 0, 10, 10])]
      = normalizedSpec [(0, "gun"), (1, "knife")]
          ((initEnhanced (1/2) 10 "cam").confidence_threshold)
          (rawPred (.resultsList [⟨0, 0, 10, 10, 9/10, 0⟩])) ∧
    (ProcAcc.mk [] 0 (initEnhanced (1/2) 10 "cam") []
        [DrawOp.summaryText 0 (1/2)] 0).detections = [] := by
  refine ⟨?_, ?_, ?_⟩
  · exact c5_normalize.1 (initEnhanced (1/2) 10 "cam") _ [(0, "gun")] []
      false (fun _ => .response 200) 100 (by decide)
  · rcases hE : processDetections (initEnhanced (1/2) 10 "cam")
        (.resultsList [⟨0, 0, 10, 10, 9/10, 0⟩]) [(0, "gun"), (1, "knife")] []
        true (fun _ => .response 200) 100 with e | r
    · have hm := processDetections_gun_map_eval
      rw [hE] at hm
      exact absurd hm (by simp [Except.map])
    · have hm := processDetections_gun_map_eval
      rw [hE] at hm
      simp only [Except.map, Except.ok.injEq, Prod.mk.injEq] at hm
      have hb := c5_normalize.2.1 (initEnhanced (1/2) 10 "cam") _ _ _ _ _ _ r
        (by decide) hE
      rw [← hm.2.2.2, hb]
  · exact c5_normalize.2.2 (initEnhanced (1/2) 10 "cam") [] []
      false (fun _ => .response 200) 100 _ rfl

/-- C6 counterexample: the one call that annotates (the main loop calls
`process_detections` with `send_alerts=True`) draws into the caller's
frame buffer in place (an empty buffer holds six drawing calls
afterwards), performs an alert dispatch, and moves the cooldown clock —
so annotation is not free of network/cooldown effects and does not leave
the input frame untouched. -/
theorem c6_side_effects_counterexample :
    (processDetections (initEnhanced (1/2) 10 "cam")
        (.resultsList [⟨0, 0, 10, 10, 9/10, 0⟩]) [(0, "gun"), (1, "knife")] []
        true (fun _ => .response 200) 100).map
      (fun r => (r.attempts, r.state.last_gun_alert, r.frame.length))
    = .ok ([("gun", 9/10)], 100, 6) ∧
    ([("gun", (9:ℚ)/10)] ≠ ([] : List (String × ℚ))) ∧
    ((100 : ℚ) ≠ (initEnhanced (1/2) 10 "cam").last_gun_alert) ∧
    (6 ≠ ([] : List DrawOp).length) := by
  refine ⟨?_, by simp, by norm_num [initEnhanced], by simp⟩
  have hm := processDetections_gun_map_eval
  rcases hE : processDetections (initEnhanced (1/2) 10 "cam")
      (.resultsList [⟨0, 0, 10, 10, 9/10, 0⟩]) [(0, "gun"), (1, "knife")] []
      true (fun _ => .response 200) 100 with e | r
  · rw [hE] at hm
    exact absurd hm (by simp [Except.map])
  · rw [hE] at hm
    simp only [Except.map, Except.ok.injEq, Prod.mk.injEq] at hm ⊢
    exact ⟨hm.1, hm.2.1, hm.2.2.1⟩

/-- C6 (amended): `process_detections` with `send_alerts=False` performs no
dispatch and leaves the alerting state untouched (alerting is the caller's
choice via the flag, exercised as `True` by the main loop); but it always
draws into the caller's frame buffer in place — at least the summary
overlay is added on every call, so the input buffer never comes back
unchanged. -/
theorem c6_annotation_in_place :
    (∀ (st : EnhancedState) (results : RawResults) (names : List (ℤ × String))
        (frame : List DrawOp) (oracle : ℕ → DispatchOutcome) (now : ℚ)
        (r : ProcAcc),
        processDetections st results names frame false oracle now = .ok r →
        r.attempts = [] ∧ r.state = st) ∧
    (∀ (st : EnhancedState) (results : RawResults) (names : List (ℤ × String))
        (frame : List DrawOp) (sa : Bool) (oracle : ℕ → DispatchOutcome)
        (now : ℚ) (r : ProcAcc),
        processDetections st results names frame sa oracle now = .ok r →
        frame.length < r.frame.length) := by
  constructor
  · intro st results names frame oracle now r h
    unfold processDetections at h
    dsimp only at h
    split at h
    · exact absurd h (by simp)
    next acc heq =>
      injection h with h'
      subst h'
      obtain ⟨ha, hs, _⟩ := procRows_no_send oracle now names _ _ acc heq
      exact ⟨ha, hs⟩
  · intro st results names frame sa oracle now r h
    unfold processDetections at h
    dsimp only at h
    split at h
    · exact absurd h (by simp)
    next acc heq =>
      injection h with h'
      subst h'
      have hmono := procRows_frame_mono sa oracle now names _ _ acc heq
      have hm2 : frame.length ≤ acc.frame.length := hmono
      dsimp only
      simp only [List.length_append, List.length_cons, List.length_nil]
      omega

/-- C6 witness: with `send_alerts=False` on an unrecognized raw result the
call makes no attempt and keeps the state, yet the empty input buffer
comes back with the summary overlay drawn into it. -/
theorem c6_annotation_in_place_witness :
    (ProcAcc.mk [] 0 (initEnhanced (1/2) 10 "cam") []
        [DrawOp.summaryText 0 (1/2)] 0).attempts = [] ∧
    (ProcAcc.mk [] 0 (initEnhanced (1/2) 10 "cam") []
        [DrawOp.summaryText 0 (1/2)] 0).state = initEnhanced (1/2) 10 "cam" ∧
    ([] : List DrawOp).length
      < (ProcAcc.mk [] 0 (initEnhanced (1/2) 10 "cam") []
          [DrawOp.summaryText 0 (1/2)] 0).frame.length := by
  have hok : processDetections (initEnhanced (1/2) 10 "cam")
      RawResults.unrecognized [] [] false (fun _ => .response 200) 100
      = .ok (ProcAcc.mk [] 0 (initEnhanced (1/2) 10 "cam") []
          [DrawOp.summaryText 0 (1/2)] 0) := rfl
  obtain ⟨h1, h2⟩ := c6_annotation_in_place.1 (initEnhanced (1/2) 10 "cam")
    RawResults.unrecognized [] [] (fun _ => .response 200) 100 _ hok
  have h3 := c6_annotation_in_place.2 (initEnhanced (1/2) 10 "cam")
    RawResults.unrecognized [] [] false (fun _ => .response 200) 100 _ hok
  exact ⟨h1, h2, h3⟩

end AlertMatrix
